import Mathlib

/-!
# Verification of the multi-source product resolution and fusion engine

A shallow embedding of the core of the `product-data-collector` repository
(`gemini_search.py`, `multi_source.py`, `config.py`, and the bulk loop of
`app.py`) together with theorems settling the frozen claims about it.

Python strings are modelled by Lean `String`; Python dicts whose iteration
order matters are modelled by association lists in insertion order; Python
dict assignment `d[k] = v` is modelled by an update-in-place-or-append
operation (`setSpec`); code that may raise is modelled in `Except String`;
heap mutation of the shared demo dataset is modelled by explicit state
passing of the dataset.  Case mapping is the ASCII mapping (the datasets,
sentinels and trigger keywords in the source are all ASCII).
-/

namespace PDC

/-- Python `str.isspace` class of characters (ASCII range). -/
def isWs (c : Char) : Bool :=
  c = ' ' || c = '\t' || c = '\n' || c = '\r' || c = '\x0b' || c = '\x0c'

/-- ASCII lower-casing of one character, as Python `str.lower` acts on ASCII. -/
def lowerC : Char → Char
  | 'A' => 'a' | 'B' => 'b' | 'C' => 'c' | 'D' => 'd' | 'E' => 'e' | 'F' => 'f'
  | 'G' => 'g' | 'H' => 'h' | 'I' => 'i' | 'J' => 'j' | 'K' => 'k' | 'L' => 'l'
  | 'M' => 'm' | 'N' => 'n' | 'O' => 'o' | 'P' => 'p' | 'Q' => 'q' | 'R' => 'r'
  | 'S' => 's' | 'T' => 't' | 'U' => 'u' | 'V' => 'v' | 'W' => 'w' | 'X' => 'x'
  | 'Y' => 'y' | 'Z' => 'z'
  | c => c

/-- ASCII upper-casing of one character, as Python `str.upper` acts on ASCII. -/
def upperC : Char → Char
  | 'a' => 'A' | 'b' => 'B' | 'c' => 'C' | 'd' => 'D' | 'e' => 'E' | 'f' => 'F'
  | 'g' => 'G' | 'h' => 'H' | 'i' => 'I' | 'j' => 'J' | 'k' => 'K' | 'l' => 'L'
  | 'm' => 'M' | 'n' => 'N' | 'o' => 'O' | 'p' => 'P' | 'q' => 'Q' | 'r' => 'R'
  | 's' => 'S' | 't' => 'T' | 'u' => 'U' | 'v' => 'V' | 'w' => 'W' | 'x' => 'X'
  | 'y' => 'Y' | 'z' => 'Z'
  | c => c

/-- Python `s.lower()`. -/
def pyLower (s : String) : String := String.mk (s.data.map lowerC)

/-- Python `needle in haystack` on lists of characters. -/
def infixB : List Char → List Char → Bool
  | n, [] => n.isEmpty
  | n, c :: t => n.isPrefixOf (c :: t) || infixB n t

/-- Python substring containment `needle in haystack` on strings. -/
def substrB (needle hay : String) : Bool := infixB needle.data hay.data

/-- Worker for Python `str.split()` (split on whitespace runs, drop empties).
`cur` is the current token accumulated in reverse. -/
def splitWsGo (cur : List Char) : List Char → List (List Char)
  | [] => if cur.isEmpty then [] else [cur.reverse]
  | c :: t =>
    if isWs c then
      if cur.isEmpty then splitWsGo [] t else cur.reverse :: splitWsGo [] t
    else splitWsGo (c :: cur) t

/-- Python `s.split()` with no separator argument. -/
def pySplitWs (s : String) : List String := (splitWsGo [] s.data).map String.mk

/-- Python `s.strip()`. -/
def pyStrip (s : String) : String :=
  String.mk (((s.data.dropWhile isWs).reverse.dropWhile isWs).reverse)

/-- Python `s.capitalize()`: upper-case the first character, lower-case the rest. -/
def capitalizePy (s : String) : String :=
  match s.data with
  | [] => ""
  | c :: t => String.mk (upperC c :: t.map lowerC)

/-- Python `s.isdigit()` (ASCII digits; `False` on the empty string). -/
def isdigitB (s : String) : Bool := !s.data.isEmpty && s.data.all Char.isDigit

/-- Worker for Python `s.replace(old, new)`: left-to-right, non-overlapping.
`fuel` starts at the length of the text, which suffices since every step
consumes at least one character. -/
def replaceGo (pat rep : List Char) : Nat → List Char → List Char
  | _, [] => []
  | 0, s => s
  | fuel + 1, c :: t =>
    if pat.isPrefixOf (c :: t) then
      rep ++ replaceGo pat rep fuel (t.drop (pat.length - 1))
    else c :: replaceGo pat rep fuel t

/-- Python `s.replace(old, new)` for a non-empty `old` (every use in the
source has a non-empty literal pattern). -/
def pyReplace (s pat rep : String) : String :=
  if pat.data.isEmpty then s
  else String.mk (replaceGo pat.data rep.data s.data.length s.data)

/-- A value stored under a key of a `specifications` mapping.  The Python
code stores strings, ints (`search_results_count`) and lists of strings
(`errors`, `enabled_sources`) in the same dict. -/
inductive SpecVal where
  | str (v : String)
  | nat (n : Nat)
  | strList (vs : List String)
deriving DecidableEq, Repr

/-- The common normalized record every provider produces
(the `ProviderResult` schema of the spec; a plain `dict` in the source).
`multi_source` and `searched_sources` are the fusion-added fields; a record
fresh from an adapter has the defaults `false` / `[]`. -/
@[ext] structure ProviderResult where
  brand : String
  model : String
  category : String
  specifications : List (String × SpecVal)
  price_range : String
  availability : String
  sources : List String
  multi_source : Bool := false
  searched_sources : List String := []
deriving DecidableEq, Repr

/-- Python dict assignment `m[k] = v`: overwrite every stored entry for `k`
in place (dicts keep a key's original position on reassignment), or append
`(k, v)` when `k` is absent. -/
def setSpec (m : List (String × SpecVal)) (k : String) (v : SpecVal) :
    List (String × SpecVal) :=
  if m.any (fun p => p.1 = k) then
    m.map (fun p => if p.1 = k then (k, v) else p)
  else m ++ [(k, v)]

/-- Python dict lookup `m.get(k)`. -/
def lookupSpec (m : List (String × SpecVal)) (k : String) : Option SpecVal :=
  (m.find? (fun p => p.1 = k)).map (fun p => p.2)

end PDC

namespace PDC

/-- The dict `config.SAMPLE_PRODUCTS`: the module-level demo dataset of the
web-search (Gemini) adapter, in dict insertion order.  This is the shared
state that `_combine_results` can mutate through aliasing. -/
def SAMPLE_PRODUCTS : List (String × ProviderResult) :=
  [ ("iphone 15 pro",
     { brand := "Apple", model := "iPhone 15 Pro", category := "Smartphone",
       specifications :=
         [ ("display", .str "6.1-inch Super Retina XDR OLED, 2556×1179 resolution"),
           ("processor", .str "A17 Pro chip with 6-core CPU"),
           ("storage", .str "128GB, 256GB, 512GB, 1TB options"),
           ("camera", .str "48MP Main, 12MP Ultra Wide, 12MP Telephoto (3x zoom)"),
           ("battery", .str "Up to 23 hours video playback"),
           ("os", .str "iOS 17"),
           ("connectivity", .str "5G, Wi-Fi 6E, Bluetooth 5.3"),
           ("materials", .str "Titanium design with Ceramic Shield front"),
           ("water_resistance", .str "IP68 (up to 6 meters for 30 minutes)") ],
       price_range := "$999 - $1,499", availability := "Available",
       sources := ["apple.com", "gsmarena.com", "techradar.com", "theverge.com"] }),
    ("sony wh-1000xm5",
     { brand := "Sony", model := "WH-1000XM5",
       category := "Wireless Noise-Canceling Headphones",
       specifications :=
         [ ("driver", .str "30mm dynamic drivers"),
           ("frequency_response", .str "4Hz - 40kHz"),
           ("battery_life", .str "30 hours with ANC, 40 hours without ANC"),
           ("charging", .str "USB-C, Quick charge: 3 min = 3 hours playback"),
           ("weight", .str "250g"),
           ("connectivity", .str "Bluetooth 5.2, NFC, 3.5mm jack"),
           ("noise_canceling", .str "Industry-leading ANC with V1 processor"),
           ("microphones", .str "8 microphones for call clarity"),
           ("codec_support", .str "LDAC, SBC, AAC") ],
       price_range := "$399 - $429", availability := "Available",
       sources := ["sony.com", "rtings.com", "whatifi.com", "headphonesty.com"] }),
    ("macbook pro m3",
     { brand := "Apple", model := "MacBook Pro M3", category := "Laptop",
       specifications :=
         [ ("processor", .str "Apple M3 chip with 8-core CPU and 10-core GPU"),
           ("memory", .str "8GB, 16GB, or 24GB unified memory"),
           ("storage", .str "512GB, 1TB, 2TB SSD options"),
           ("display", .str "14-inch or 16-inch Liquid Retina XDR display"),
           ("battery", .str "Up to 22 hours video playback"),
           ("ports", .str "3x Thunderbolt 4, HDMI, SDXC, MagSafe 3"),
           ("os", .str "macOS Sonoma"),
           ("weight", .str "3.4 lbs (14-inch), 4.7 lbs (16-inch)") ],
       price_range := "$1,599 - $2,499", availability := "Available",
       sources := ["apple.com", "macrumors.com", "9to5mac.com"] }),
    ("dell p2422h",
     { brand := "Dell", model := "P2422H", category := "Professional Monitor",
       specifications :=
         [ ("screen_size", .str "24-inch (23.8-inch viewable)"),
           ("resolution", .str "1920 x 1080 Full HD"),
           ("panel_type", .str "IPS technology"),
           ("refresh_rate", .str "60Hz"),
           ("response_time", .str "8ms (normal); 5ms (fast)"),
           ("brightness", .str "250 cd/m² (typical)"),
           ("contrast_ratio", .str "1000:1 (typical)"),
           ("color_gamut", .str "99% sRGB"),
           ("connectivity", .str "HDMI 1.4, DisplayPort 1.2, VGA, USB 3.2 hub"),
           ("adjustability", .str "Height, tilt, swivel, pivot"),
           ("vesa_mount", .str "100mm x 100mm"),
           ("power_consumption", .str "18W (typical)") ],
       price_range := "$200 - $280", availability := "Available",
       sources := ["dell.com", "displayspecifications.com", "rtings.com"] }),
    ("samsung galaxy s24",
     { brand := "Samsung", model := "Galaxy S24", category := "Smartphone",
       specifications :=
         [ ("display", .str "6.2-inch Dynamic AMOLED 2X, 2340×1080"),
           ("processor", .str "Snapdragon 8 Gen 3 / Exynos 2400"),
           ("storage", .str "128GB, 256GB, 512GB"),
           ("camera", .str "50MP main, 12MP ultrawide, 10MP telephoto"),
           ("battery", .str "4000mAh with 25W fast charging"),
           ("os", .str "Android 14 with One UI 6.1"),
           ("connectivity", .str "5G, Wi-Fi 6E, Bluetooth 5.3"),
           ("materials", .str "Aluminum frame with Gorilla Glass Victus 2"),
           ("water_resistance", .str "IP68") ],
       price_range := "$799 - $999", availability := "Available",
       sources := ["samsung.com", "gsmarena.com", "androidcentral.com"] }),
    ("tesla model 3",
     { brand := "Tesla", model := "Model 3", category := "Electric Vehicle",
       specifications :=
         [ ("drivetrain", .str "Rear-wheel drive / All-wheel drive"),
           ("range", .str "272-358 miles EPA estimated"),
           ("acceleration", .str "0-60 mph in 4.2-5.8 seconds"),
           ("top_speed", .str "125-162 mph"),
           ("charging", .str "Supercharger V3 compatible, up to 250kW"),
           ("interior", .str "15-inch touchscreen, premium audio"),
           ("autopilot", .str "Standard Autopilot included"),
           ("seating", .str "5 adults"),
           ("cargo", .str "15 cu ft rear, 2.8 cu ft front trunk") ],
       price_range := "$38,990 - $54,990", availability := "Available",
       sources := ["tesla.com", "edmunds.com", "motortrend.com"] }),
    ("airpods pro",
     { brand := "Apple", model := "AirPods Pro (2nd generation)",
       category := "Wireless Earbuds",
       specifications :=
         [ ("chip", .str "Apple H2 chip"),
           ("noise_cancellation", .str "Active Noise Cancellation"),
           ("battery_life", .str "6 hours listening, 30 hours with case"),
           ("charging", .str "MagSafe, Lightning, Qi wireless"),
           ("audio", .str "Adaptive Audio, Personalized Spatial Audio"),
           ("controls", .str "Touch control, Siri voice control"),
           ("water_resistance", .str "IPX4 (earbuds and case)"),
           ("case", .str "MagSafe Charging Case included") ],
       price_range := "$249 - $279", availability := "Available",
       sources := ["apple.com", "soundguys.com", "whatifi.com"] }) ]

/-- The demo dataset type: gemini's module-level `SAMPLE_PRODUCTS`, carried as
explicit state because `_combine_results` can mutate an entry in place. -/
abbrev DB := List (String × ProviderResult)

/-- First matching pass of `GeminiProductSearcher._demo_search`: the key
equals the lowered query, or the key is a substring of it. -/
def demoPass1 (ql : String) (e : String × ProviderResult) : Bool :=
  e.1 = ql || substrB e.1 ql

/-- Token-overlap test of `_demo_search`: some cleaned-query token of length
`> 2` is a substring of some key token, or conversely. -/
def tokenOverlap (qc : String) (key : String) : Bool :=
  (pySplitWs qc).any (fun qw =>
    decide (qw.length > 2) &&
    (pySplitWs key).any (fun kw => substrB qw kw || substrB kw qw))

/-- Per-entry body of the second loop of `_demo_search`: brand or model
(lower-cased) is a substring of the lowered query, or the token-overlap
test fires.  In the source both checks sit inside one `for` over entries. -/
def demoPass2 (ql qc : String) (e : String × ProviderResult) : Bool :=
  substrB (pyLower e.2.brand) ql || substrB (pyLower e.2.model) ql ||
    tokenOverlap qc e.1

/-- Dict membership `k in db` for the demo dataset. -/
def hasKey (db : DB) (k : String) : Bool := db.any (fun e => e.1 = k)

/-- Dict lookup `db[k]` on the demo dataset (first entry with the key). -/
def lookupEntry (db : DB) (k : String) : Option (String × ProviderResult) :=
  db.find? (fun e => e.1 = k)

/-- The fixed special-case keyword groups at the end of `_demo_search`.
In the source each group is `if any(term in query_lower ...):` followed by a
nested membership check of the dataset key; a group whose key is absent
falls through to the next group. -/
def specialFind (ql : String) (db : DB) : Option (String × ProviderResult) :=
  if (["dell", "p2422", "2422"].any fun t => substrB t ql) && hasKey db "dell p2422h" then
    lookupEntry db "dell p2422h"
  else if (["galaxy", "s24", "samsung"].any fun t => substrB t ql) && hasKey db "samsung galaxy s24" then
    lookupEntry db "samsung galaxy s24"
  else if (["tesla", "model 3", "model3"].any fun t => substrB t ql) && hasKey db "tesla model 3" then
    lookupEntry db "tesla model 3"
  else if (["airpods", "pro", "earbuds"].any fun t => substrB t ql) && hasKey db "airpods pro" then
    lookupEntry db "airpods pro"
  else none

/-- The lowered-and-stripped query of `_demo_search`. -/
def demoQl (q : String) : String := pyStrip (pyLower q)

/-- The cleaned query of `_demo_search`: literal substrings `"monitor"`,
`"laptop"`, `"phone"` removed, then stripped. -/
def demoQc (q : String) : String :=
  pyStrip (pyReplace (pyReplace (pyReplace (demoQl q) "monitor" "") "laptop" "") "phone" "")

/-- The matching part of `GeminiProductSearcher._demo_search`: which dataset
entry (if any) the lookup returns.  The entry is also the dict object the
fuser may later mutate, so we keep its key. -/
def demoFind (db : DB) (q : String) : Option (String × ProviderResult) :=
  let ql := demoQl q
  let qc := demoQc q
  match db.find? (demoPass1 ql) with
  | some e => some e
  | none =>
    match db.find? (demoPass2 ql qc) with
    | some e => some e
    | none => specialFind ql db

/-- The "not found" record `_demo_search` builds when nothing matched,
including the enumerated dataset keys in the suggestion. -/
def demoNotFound (db : DB) (q : String) : ProviderResult :=
  { brand := "Unknown", model := q, category := "Product",
    specifications :=
      [ ("status", .str "Product not found in demo database"),
        ("suggestion", .str ("Try one of these available products: " ++
          String.intercalate ", " (db.map Prod.fst))),
        ("search_tip", .str "Demo mode supports: iPhone 15 Pro, Sony WH-1000XM5, MacBook Pro M3, Dell P2422H, Samsung Galaxy S24, Tesla Model 3, AirPods Pro"),
        ("note", .str "This is demo mode. Connect your Gemini API key for real searches.") ],
    price_range := "N/A", availability := "Unknown", sources := ["demo-mode"] }

/-- The lookup `GeminiProductSearcher._demo_search` over an explicit dataset state. -/
def demo_search (db : DB) (q : String) : ProviderResult :=
  match demoFind db q with
  | some e => e.2
  | none => demoNotFound db q

end PDC

namespace PDC

/-- One element of the `candidates` array of a Gemini backend response, as
`_real_api_search` consumes it: the generated text, the outcome of
`json.loads` on that text (`none` models `JSONDecodeError`), and the
`renderedContent` sources when grounding metadata is present. -/
structure GeminiCandidate where
  content : String
  parsed : Option ProviderResult
  grounding : Option (List String)
deriving DecidableEq, Repr

/-- The backend HTTP response as `_real_api_search` branches on it:
status code, body text (used in the failure message) and the decoded
`candidates` array (empty when the key is absent or the list empty). -/
structure GeminiResponse where
  status : Nat
  text : String
  candidates : List GeminiCandidate
deriving DecidableEq, Repr

/-- The call `GeminiProductSearcher._real_api_search`.  The `resp` argument is what
`requests.post` produced (`.error` models a `RequestException`).  The
result is `.error msg` when the Python function raises, `.ok (some r)` when
it returns the record `r`, and `.ok none` when it falls off the end of the
function and returns `None`. -/
def real_api_search (api_key : Option String) (q : String)
    (resp : Except String GeminiResponse) : Except String (Option ProviderResult) :=
  match api_key with
  | none => .error "API key is required for real searches"
  | some _ =>
    match resp with
    | .error e => .error ("Network error: " ++ e)
    | .ok r =>
      if r.status = 200 then
        match r.candidates with
        | [] => .ok none
        | c :: _ =>
          match c.parsed with
          | some pr =>
            match c.grounding with
            | some srcs => .ok (some { pr with sources := srcs })
            | none => .ok (some pr)
          | none =>
            .ok (some { brand := "Unknown", model := q, category := "Product",
                        specifications := [("raw_response", .str c.content)],
                        price_range := "N/A", availability := "Unknown",
                        sources := ["gemini-api"] })
      else
        .error ("API error: API request failed: " ++ toString r.status ++ " - " ++ r.text)

/-- For `IcecatSearcher`: one trigger-keyed entry of the demo product database
built inside `_demo_icecat_search`. -/
structure TriggerEntry where
  triggers : List String
  data : ProviderResult
deriving DecidableEq, Repr

/-- The `source_url` the Icecat demo records embed
(`query.replace(' ', '%20')` interpolated into the search URL). -/
def icecatSourceUrl (q : String) : String :=
  "https://icecat.biz/en/search/?keyword=" ++ pyReplace q " " "%20"

/-- The `demo_products` dict built inside `IcecatSearcher._demo_icecat_search`
(it embeds the query in each entry's `source_url`). -/
def icecatDemoProducts (q : String) : List TriggerEntry :=
  [ { triggers := ["samsung", "galaxy", "s24"],
      data :=
        { brand := "Samsung",
          model := "Galaxy S24 15.8 cm (6.2\") Dual SIM Android 14 5G USB Type-C 8 GB 128 GB 4000 mAh Amber, Yellow",
          category := "Smartphone",
          specifications :=
            [ ("icecat_id", .str "SM-S921BZYDEUBH"),
              ("display", .str "15.8 cm (6.2\") Dynamic AMOLED 2X"),
              ("storage", .str "128GB internal storage"),
              ("ram", .str "8 GB"),
              ("main_camera", .str "50 MP main camera"),
              ("battery", .str "4000 mAh"),
              ("connectivity", .str "5G, USB Type-C"),
              ("os", .str "Android 14"),
              ("sim", .str "Dual SIM"),
              ("colors", .str "Amber, Yellow"),
              ("dimensions", .str "147.0 x 70.6 x 7.6 mm"),
              ("search_results", .str "Product found in Icecat database"),
              ("source_url", .str (icecatSourceUrl q)) ],
          price_range := "Contact supplier",
          availability := "Available in Icecat catalog", sources := ["icecat.biz"] } },
    { triggers := ["dell", "p2422", "monitor"],
      data :=
        { brand := "Dell", model := "P2422H 24-inch Professional Monitor",
          category := "LCD Monitor",
          specifications :=
            [ ("icecat_id", .str "210-AYLX"),
              ("screen_size", .str "24 inches (60.96 cm)"),
              ("resolution", .str "1920 x 1080 Full HD"),
              ("panel_type", .str "IPS"),
              ("response_time", .str "5 ms"),
              ("refresh_rate", .str "60 Hz"),
              ("connectivity", .str "HDMI, DisplayPort, VGA, USB hub"),
              ("energy_rating", .str "Energy Star certified"),
              ("vesa_mount", .str "100 x 100 mm"),
              ("adjustable_stand", .str "Height, tilt, swivel, pivot"),
              ("color_coverage", .str "99% sRGB"),
              ("search_results", .str "Product found in Icecat database"),
              ("source_url", .str (icecatSourceUrl q)) ],
          price_range := "$200 - $280",
          availability := "Available in Icecat catalog", sources := ["icecat.biz"] } },
    { triggers := ["gembird", "ups", "850"],
      data :=
        { brand := "Gembird", model := "UPS-PC-850AP",
          category := "UPS (Uninterruptible Power Supply)",
          specifications :=
            [ ("icecat_id", .str "UPS-PC-850AP"),
              ("power_capacity", .str "850 VA / 480 W"),
              ("battery_type", .str "Sealed Lead Acid"),
              ("backup_time", .str "10-15 minutes at full load"),
              ("input_voltage", .str "230V AC ±25%"),
              ("output_voltage", .str "230V AC ±10%"),
              ("outlets", .str "4 x IEC 13A sockets"),
              ("protection", .str "Surge, overload, short circuit"),
              ("dimensions", .str "350 x 95 x 140 mm"),
              ("weight", .str "4.5 kg"),
              ("search_results", .str "Product found in Icecat database"),
              ("source_url", .str (icecatSourceUrl q)) ],
          price_range := "$80 - $120",
          availability := "Available in Icecat catalog", sources := ["icecat.biz"] } },
    { triggers := ["iphone", "apple", "15", "pro"],
      data :=
        { brand := "Apple", model := "iPhone 15 Pro", category := "Smartphone",
          specifications :=
            [ ("icecat_id", .str "iPhone15Pro"),
              ("display", .str "6.1-inch Super Retina XDR OLED"),
              ("processor", .str "A17 Pro chip"),
              ("storage", .str "128GB, 256GB, 512GB, 1TB"),
              ("camera", .str "48MP main, 12MP ultra-wide, 12MP telephoto"),
              ("battery", .str "Up to 23 hours video playback"),
              ("connectivity", .str "5G, Wi-Fi 6E, Bluetooth 5.3"),
              ("materials", .str "Titanium design"),
              ("search_results", .str "Product found in Icecat database"),
              ("source_url", .str (icecatSourceUrl q)) ],
          price_range := "$999 - $1,499",
          availability := "Available in Icecat catalog", sources := ["icecat.biz"] } } ]

/-- The fixed brand list of `IcecatSearcher._extract_brand_from_query`. -/
def icecatBrands : List String :=
  [ "Samsung", "Apple", "Dell", "Sony", "HP", "Lenovo", "LG", "Asus",
    "Acer", "Gembird", "Intel", "AMD", "NVIDIA", "Microsoft", "Google",
    "Xiaomi", "Huawei", "OnePlus", "Motorola", "Nokia", "Panasonic",
    "Canon", "Nikon", "Epson", "Brother", "Cisco", "Netgear", "TP-Link" ]

/-- The helper `IcecatSearcher._extract_brand_from_query`: first listed brand whose
lower-cased form is a substring of the lower-cased query; else the
capitalized first word; else `"Generic Brand"`. -/
def extract_brand_from_query (q : String) : String :=
  match icecatBrands.find? (fun b => substrB (pyLower b) (pyLower q)) with
  | some b => b
  | none =>
    match pySplitWs q with
    | w :: _ => capitalizePy w
    | [] => "Generic Brand"

/-- The category keyword table of the effective (second) definition of
`IcecatSearcher._guess_category`, in dict order. -/
def icecatCategories : List (String × List String) :=
  [ ("Smartphone", ["phone", "iphone", "galaxy", "smartphone", "mobile", "android"]),
    ("Monitor", ["monitor", "display", "screen", "lcd", "led", "oled"]),
    ("Laptop", ["laptop", "macbook", "notebook", "ultrabook", "thinkpad"]),
    ("Audio", ["headphone", "earphone", "airpods", "speaker", "soundbar"]),
    ("Power Supply", ["ups", "power", "supply", "battery", "charger"]),
    ("Networking", ["router", "switch", "wifi", "modem", "access point"]),
    ("Storage", ["ssd", "hdd", "drive", "storage", "disk"]),
    ("Gaming", ["gaming", "xbox", "playstation", "console", "gamepad"]),
    ("Camera", ["camera", "webcam", "lens", "camcorder"]),
    ("Printer", ["printer", "scanner", "multifunction", "inkjet", "laser"]) ]

/-- The helper `IcecatSearcher._guess_category` (the later definition in the class
body, which is the one Python keeps). -/
def guess_category (name : String) : String :=
  let nl := pyLower name
  match icecatCategories.find? (fun c => c.2.any (fun k => substrB k nl)) with
  | some c => c.1
  | none => "Electronics"

/-- The generic always-succeed fallback record `_demo_icecat_search`
synthesizes when no trigger matched. -/
def icecatGenericResult (q : String) : ProviderResult :=
  { brand := extract_brand_from_query q, model := q, category := guess_category q,
    specifications :=
      [ ("search_results", .str "Product found in Icecat database"),
        ("note", .str "First result from Icecat catalog"),
        ("source_url", .str (icecatSourceUrl q)),
        ("product_name", .str q),
        ("availability", .str "Available in catalog"),
        ("data_source", .str "Icecat product database") ],
    price_range := "Contact supplier",
    availability := "Available in Icecat catalog", sources := ["icecat.biz"] }

/-- The lookup `IcecatSearcher._demo_icecat_search`: all-trigger priority pass, then
any-trigger pass, then the synthesized generic result. -/
def demo_icecat_search (q : String) : ProviderResult :=
  let ql := pyLower q
  let prods := icecatDemoProducts q
  match prods.find? (fun e => e.triggers.all (fun t => substrB t ql)) with
  | some e => e.data
  | none =>
    match prods.find? (fun e => e.triggers.any (fun t => substrB t ql)) with
    | some e => e.data
    | none => icecatGenericResult q

/-- The method `IcecatSearcher.search_product`: regardless of the configured
credentials it returns the demo database result directly (the live-API
helpers exist in the class but are never called from `search_product`). -/
def icecat_search_product (_api_key _content_token : Option String) (q : String) :
    ProviderResult :=
  demo_icecat_search q

end PDC

namespace PDC

/-- One entry of the `sample_gtins` dict in `GS1Searcher._demo_gs1_search`. -/
structure GtinEntry where
  brand : String
  product_name : String
  category : String
deriving DecidableEq, Repr

/-- The fixed demo GTIN dataset of `GS1Searcher._demo_gs1_search`. -/
def sample_gtins : List (String × GtinEntry) :=
  [ ("012345678905",
     { brand := "Sample Brand", product_name := "Demo Product",
       category := "Consumer Goods" }),
    ("1234567890123",
     { brand := "Tech Corp", product_name := "Electronic Device",
       category := "Electronics" }) ]

/-- The lookup `GS1Searcher._demo_gs1_search` on an already-normalized GTIN string. -/
def demo_gs1_search (gtin : String) : ProviderResult :=
  match (sample_gtins.find? (fun e => e.1 = gtin)).map (fun e => e.2) with
  | some d =>
    { brand := d.brand, model := d.product_name, category := d.category,
      specifications :=
        [ ("gtin", .str gtin),
          ("gs1_verified", .str "Yes"),
          ("product_type", .str d.category),
          ("identification_standard", .str "GS1 GTIN") ],
      price_range := "Contact manufacturer",
      availability := "Check with authorized retailers",
      sources := ["gs1.org", "manufacturer"] }
  | none =>
    { brand := "Unknown", model := "GTIN: " ++ gtin, category := "Product",
      specifications :=
        [ ("gtin", .str gtin),
          ("status", .str "Valid GTIN format but not found in demo database"),
          ("note", .str "This is a demo. Real GS1 integration would query the actual registry") ],
      price_range := "N/A", availability := "Unknown", sources := ["gs1.org"] }

/-- The normalized query of `GS1Searcher.search_product`
(hyphens and spaces removed). -/
def gs1Norm (q : String) : String := pyReplace (pyReplace q "-" "") " " ""

/-- The candidate-GTIN format gate: all digits, length in {8, 12, 13, 14}. -/
def gtinValid (s : String) : Bool :=
  isdigitB s && (s.length = 8 || s.length = 12 || s.length = 13 || s.length = 14)

/-- The informational record `GS1Searcher.search_product` returns for a
query that does not look like a GTIN. -/
def gs1InfoRec (q : String) : ProviderResult :=
  { brand := "GS1 Search", model := q, category := "Product Identification",
    specifications :=
      [ ("note", .str "GS1 search works best with GTIN/barcode numbers"),
        ("gtin_format", .str "Enter 8, 12, 13, or 14 digit GTIN"),
        ("example", .str "Try: 012345678905 or 1234567890123"),
        ("status", .str "Invalid GTIN format") ],
    price_range := "N/A", availability := "Unknown", sources := ["gs1.org"] }

/-- The method `GS1Searcher.search_product`. -/
def gs1_search_product (q : String) : ProviderResult :=
  let qc := gs1Norm q
  if gtinValid qc then demo_gs1_search qc else gs1InfoRec q

/-- The per-call result dict of `MultiSourceSearcher.search_product`:
at most one record per provider, in the fixed insertion order
google, icecat, gs1. -/
structure SourceResults where
  google : Option ProviderResult
  icecat : Option ProviderResult
  gs1 : Option ProviderResult
deriving DecidableEq, Repr

/-- The items of the result dict in insertion order (google, then icecat, then gs1). -/
def SourceResults.entries (r : SourceResults) : List (String × ProviderResult) :=
  (r.google.map (fun p => ("google", p))).toList ++
    (r.icecat.map (fun p => ("icecat", p))).toList ++
    (r.gs1.map (fun p => ("gs1", p))).toList

/-- Condition of the first branch of `_combine_results`:
icecat answered and its brand is not the `"Not Found"` sentinel. -/
def icecatOk (r : SourceResults) : Bool :=
  match r.icecat with
  | some p => p.brand != "Not Found"
  | none => false

/-- Condition of the second branch of `_combine_results`:
google answered and its brand is not the `"Unknown"` sentinel. -/
def googleOk (r : SourceResults) : Bool :=
  match r.google with
  | some p => p.brand != "Unknown"
  | none => false

/-- Which provider's record `_combine_results` picks as the base:
icecat unless `"Not Found"`, else google unless `"Unknown"`, else gs1 if
present, else the first inserted record. -/
def baseTag (r : SourceResults) : Option String :=
  if icecatOk r then some "icecat"
  else if googleOk r then some "google"
  else if r.gs1.isSome then some "gs1"
  else r.entries.head?.map Prod.fst

/-- The base record selected by `_combine_results` (partial application of
the same branch chain). -/
def baseOf (r : SourceResults) : Option ProviderResult :=
  if icecatOk r then r.icecat
  else if googleOk r then r.google
  else if r.gs1.isSome then r.gs1
  else r.entries.head?.map Prod.snd

/-- Keep the first occurrence of each string.  Models `list(set(xs))`; the
Python expression's order is set-iteration order, which the spec leaves
unspecified, so the embedding fixes first-occurrence order. -/
def dedupFirst (l : List String) : List String :=
  l.foldl (fun acc x => if acc.contains x then acc else acc ++ [x]) []

/-- Unreachable placeholder: `_combine_results` is only invoked on a
non-empty result dict, where `baseOf` is always `some`. -/
def junkPR : ProviderResult :=
  { brand := "", model := "", category := "", specifications := [],
    price_range := "", availability := "", sources := [] }

/-- The fuser `MultiSourceSearcher._combine_results`: select the base by priority,
mark it `multi_source`, replace `sources` with the deduplicated union of
all answering providers' sources, record `searched_sources`, and write the
two synthetic keys into the base's `specifications`. -/
def combine_results (r : SourceResults) (_q : String) : ProviderResult :=
  let base := (baseOf r).getD junkPR
  let allSources := r.entries.foldl (fun acc e => acc ++ e.2.sources) []
  { base with
    multi_source := true,
    sources := dedupFirst allSources,
    searched_sources := r.entries.map Prod.fst,
    specifications :=
      setSpec (setSpec base.specifications
          "search_results_count" (.nat r.entries.length))
        "sources_searched" (.str (String.intercalate ", " (r.entries.map Prod.fst))) }

end PDC

namespace PDC

/-- An adapter call restricted to the record-or-raise outcomes — the
behavior of all three adapters in demo mode.  The credentialed web-search
adapter can additionally return `None`; `AdapterFn` and `search_productN`
below model that full three-outcome behavior. -/
abbrev ProviderFn := String → Except String ProviderResult

/-- The adapter instances held by `MultiSourceSearcher` (each may be
absent, matching the `self.<x>_searcher and ...` guards). -/
structure MultiSourceSearcher where
  gemini_searcher : Option ProviderFn
  icecat_searcher : Option ProviderFn
  gs1_searcher : Option ProviderFn

/-- One provider step of `MultiSourceSearcher.search_product`: invoke the
adapter when its name is enabled and an instance exists; a raise is caught
and converted to a labelled message. -/
def gatherOne (name : String) (label : String) (enabled : List String)
    (fn : Option ProviderFn) (q : String) :
    Option ProviderResult × List String :=
  match if name ∈ enabled then fn else none with
  | none => (none, [])
  | some f =>
    match f q with
    | .ok p => (some p, [])
    | .error e => (none, [label ++ " search error: " ++ e])

/-- The "No Results" record of `MultiSourceSearcher.search_product` when no
provider produced a result. -/
def noResultsRec (q : String) (enabled : List String) (errors : List String) :
    ProviderResult :=
  { brand := "No Results", model := q, category := "Unknown",
    specifications :=
      [ ("status", .str "No results from any enabled source"),
        ("errors", .strList (if errors.isEmpty then ["No sources enabled"] else errors)),
        ("enabled_sources", .strList enabled) ],
    price_range := "N/A", availability := "Unknown", sources := enabled }

/-- The resolver `MultiSourceSearcher.search_product` over record-or-raise
adapters: query each enabled provider in the fixed order google, icecat,
gs1, isolating failures, then fuse the collected results or report
"No Results".  On this restricted adapter domain every provider failure is
caught; `search_productN` below extends the model to adapters that can
also return `None`, where fusion itself can raise. -/
def search_product (q : String) (enabled : List String) (s : MultiSourceSearcher) :
    ProviderResult :=
  let (g, eg) := gatherOne "google" "Google" enabled s.gemini_searcher q
  let (i, ei) := gatherOne "icecat" "Icecat" enabled s.icecat_searcher q
  let (o, eo) := gatherOne "gs1" "GS1" enabled s.gs1_searcher q
  let res : SourceResults := { google := g, icecat := i, gs1 := o }
  if res.entries.isEmpty then noResultsRec q enabled (eg ++ ei ++ eo)
  else combine_results res q

/-- Overwrite one dataset entry's `specifications` dict when its key is
`k` (the heap effect of mutating that entry's dict object in place). -/
def entrySetSpecs (k : String) (specs : List (String × SpecVal))
    (e : String × ProviderResult) : String × ProviderResult :=
  if e.1 = k then (e.1, { e.2 with specifications := specs }) else e

/-- Replace the `specifications` dict of the dataset entry keyed `k`
(the heap effect of mutating that entry's dict object in place). -/
def dbSetSpecs (db : DB) (k : String) (specs : List (String × SpecVal)) : DB :=
  db.map (entrySetSpecs k specs)

/-- The per-provider results gathered by the resolver in the app's
all-demo configuration (no credentials): google resolves via
`_demo_search` on the shared dataset, icecat and gs1 via their demo
paths; none of the three can raise. -/
def demoSlots (db : DB) (q : String) (enabled : List String) : SourceResults :=
  { google := if "google" ∈ enabled then some (demo_search db q) else none,
    icecat := if "icecat" ∈ enabled then some (demo_icecat_search q) else none,
    gs1 := if "gs1" ∈ enabled then some (gs1_search_product q) else none }

/-- The all-demo resolver call with the shared gemini dataset as explicit
state.  Returns the fused record together with the dataset state after the
call: when the fuser's base is the google record and that record aliases a
dataset entry (i.e. `_demo_search` returned a dataset entry rather than a
fresh "not found" record), `_combine_results`'s in-place write of the two
synthetic specification keys lands in the shared dataset entry. -/
def resolveSt (db : DB) (q : String) (enabled : List String) :
    ProviderResult × DB :=
  let res := demoSlots db q enabled
  if res.entries.isEmpty then (noResultsRec q enabled [], db)
  else
    let fused := combine_results res q
    if baseTag res = some "google" then
      match demoFind db q with
      | some e => (fused, dbSetSpecs db e.1 fused.specifications)
      | none => (fused, db)
    else (fused, db)

/-- One row of the bulk table built by the `tab2` loop of `app.py`
(`specifications` collapsed to a JSON string, `sources` comma-joined). -/
structure BulkRow where
  query : String
  brand : String
  model : String
  category : String
  price_range : String
  availability : String
  specifications : String
  sources : String
deriving DecidableEq, Repr

/-- Serialization (json.dumps) of one specification value, as the bulk loop serializes a
record's `specifications` (string escaping elided: no dataset value
contains a quote or backslash). -/
def dumpVal : SpecVal → String
  | .str v => "\"" ++ v ++ "\""
  | .nat n => toString n
  | .strList vs => "[" ++ String.intercalate ", " (vs.map (fun v => "\"" ++ v ++ "\"")) ++ "]"

/-- Serialization (json.dumps) of a `specifications` dict. -/
def dumpSpecs (m : List (String × SpecVal)) : String :=
  "\x7b" ++ String.intercalate ", " (m.map (fun p => "\"" ++ p.1 ++ "\": " ++ dumpVal p.2)) ++ "\x7d"

/-- The success row the bulk loop appends for one query. -/
def rowOf (q : String) (p : ProviderResult) : BulkRow :=
  { query := q, brand := p.brand, model := p.model, category := p.category,
    price_range := p.price_range, availability := p.availability,
    specifications := dumpSpecs p.specifications,
    sources := String.intercalate ", " p.sources }

/-- The placeholder row the bulk loop appends when resolving one query
raises: the query column keeps the query, every result column is "Error". -/
def errorRow (q : String) : BulkRow :=
  { query := q, brand := "Error", model := "Error", category := "Error",
    price_range := "Error", availability := "Error",
    specifications := "Error", sources := "Error" }

/-- One iteration of the bulk loop: resolve and build a row, a raise is
caught and replaced by the error placeholder row. -/
def bulkStep (resolve : String → Except String ProviderResult) (q : String) : BulkRow :=
  match resolve q with
  | .ok p => rowOf q p
  | .error _ => errorRow q

/-- The bulk driver of `app.py` `tab2`: truncate to `maxCount`
(`queries[:max_products]`), then one row per remaining query in order,
isolating per-item failures. -/
def bulkProcess (resolve : String → Except String ProviderResult)
    (queries : List String) (maxCount : Nat) : List BulkRow :=
  (queries.take maxCount).map (bulkStep resolve)

end PDC

namespace PDC

/-- The outcomes of the two live catalog calls, as the spec describes the
credentialed degradation chain (primary catalog query call, then the
alternate-protocol call). -/
structure IcecatLiveEnv where
  primary : Except String ProviderResult
  secondary : Except String ProviderResult

/-- Modelled from the spec: the credentialed degradation chain of section
4.2 that `IcecatSearcher.search_product` is claimed to perform — "attempt a
primary catalog query call; if that call itself signals an error condition
(non-2xx, exception), attempt a secondary alternate-protocol call; if that
also fails, fall through to the offline dataset"; with no credential the
offline dataset is used directly.  This definition follows the spec's
words; the source's `search_product` is `icecat_search_product` above. -/
def icecatSearchSpecChain (env : IcecatLiveEnv) (api_key : Option String)
    (q : String) : ProviderResult :=
  match api_key with
  | none => demo_icecat_search q
  | some _ =>
    match env.primary with
    | .ok r => r
    | .error _ =>
      match env.secondary with
      | .ok r => r
      | .error _ => demo_icecat_search q

/-- Modelled from the spec: the offline dataset lookup of section 4.1 with
its passes run strictly in order over the whole dataset — the
exact-key-or-substring pass over every entry, then the brand/model
substring pass over every entry, then the token-overlap pass over every
entry, then the special-case keyword groups.  This definition follows the
claim's words; the source's interleaved loop is `demoFind` above. -/
def demoFindSpecPasses (db : DB) (q : String) : Option (String × ProviderResult) :=
  let ql := demoQl q
  let qc := demoQc q
  match db.find? (demoPass1 ql) with
  | some e => some e
  | none =>
    match db.find? (fun e =>
        substrB (pyLower e.2.brand) ql || substrB (pyLower e.2.model) ql) with
    | some e => some e
    | none =>
      match db.find? (fun e => tokenOverlap qc e.1) with
      | some e => some e
      | none => specialFind ql db

end PDC

namespace PDC

/-- The non-fusion fields of a record: the fuser copies these from the base
result unchanged. -/
def coreOf (p : ProviderResult) : String × String × String × String × String :=
  (p.brand, p.model, p.category, p.price_range, p.availability)

/-- A minimal record with a given brand, for exercising the fuser. -/
def mkBrand (b : String) : ProviderResult :=
  { brand := b, model := "m", category := "c", specifications := [],
    price_range := "p", availability := "a", sources := ["s"] }

/-- A live-call environment whose primary catalog call succeeds with a
distinctive record, for exercising the claimed degradation chain. -/
def liveEnvEx : IcecatLiveEnv :=
  { primary := .ok (mkBrand "Icecat Live"), secondary := .error "unreachable" }

/-- C3: at the failing input — an API key configured and the backend
answering HTTP 200 with a JSON body containing no candidates — the
credentialed web-search path returns `None` (absence), not a
`ProviderResult` and not a raise.  This evaluates the code at the input on
which it contradicts the claimed "never returns null" invariant and its own
`-> Dict[str, Any]` return annotation. -/
theorem C3_returns_none_on_200_without_candidates :
    real_api_search (some "k") "iPhone 15" (.ok { status := 200, text := "", candidates := [] }) =
      .ok none := rfl

/-- C4 counterexample: with a credential configured and a live environment
whose primary call would succeed with brand "Icecat Live", the source's
`search_product` still returns the offline demo record (brand "Widget" for
the query "widget"), so it does not perform the claimed
primary-call/secondary-call/offline degradation chain. -/
theorem C4_counterexample :
    icecat_search_product (some "token1234") none "widget" ≠
      icecatSearchSpecChain liveEnvEx (some "token1234") "widget" := by
  decide

/-- C4 amended: `IcecatSearcher.search_product` never attempts the live
calls; whatever credentials are configured and whatever the live backend
would answer, it behaves exactly as the no-credential branch of the spec's
degradation chain, i.e. it returns the offline demo-dataset result. -/
theorem C4_always_offline (env : IcecatLiveEnv) (api_key content_token : Option String)
    (q : String) :
    icecat_search_product api_key content_token q = icecatSearchSpecChain env none q := rfl

end PDC

namespace PDC

/-- C6 counterexample: on the query "pro dell" the source's offline lookup
returns the "iphone 15 pro" entry (token overlap on the first entry in
iteration order), while the claimed strictly-staged pass order would return
the "dell p2422h" entry (brand substring match).  The brand/model pass
therefore does not run to completion over the whole dataset before the
token-overlap pass. -/
theorem C6_counterexample :
    (demoFind SAMPLE_PRODUCTS "pro dell").map (fun e => e.2.brand) = some "Apple" ∧
    (demoFindSpecPasses SAMPLE_PRODUCTS "pro dell").map (fun e => e.2.brand) = some "Dell" ∧
    demoFind SAMPLE_PRODUCTS "pro dell" ≠ demoFindSpecPasses SAMPLE_PRODUCTS "pro dell" := by
  refine ⟨by decide, by decide, by decide⟩

/-- C6 amended: the offline lookup runs the exact-key-or-substring pass
over the whole dataset first; after that, the brand/model-substring and
token-overlap checks are evaluated together in a single pass per entry, and
the first entry in dataset iteration order satisfying either check wins;
only if no entry matches at all are the fixed special-case keyword groups
consulted. -/
theorem C6_amended_pass_structure (db : DB) (q : String) :
    (∀ e, db.find? (demoPass1 (demoQl q)) = some e → demoFind db q = some e) ∧
    (∀ l1 e l2, db = l1 ++ e :: l2 →
      db.find? (demoPass1 (demoQl q)) = none →
      (∀ x ∈ l1, demoPass2 (demoQl q) (demoQc q) x = false) →
      demoPass2 (demoQl q) (demoQc q) e = true →
      demoFind db q = some e) ∧
    (db.find? (demoPass1 (demoQl q)) = none →
      db.find? (demoPass2 (demoQl q) (demoQc q)) = none →
      demoFind db q = specialFind (demoQl q) db) := by
  refine ⟨?_, ?_, ?_⟩
  · intro e h
    simp [demoFind, h]
  · intro l1 e l2 hdb h1 hl1 he
    have h2 : db.find? (demoPass2 (demoQl q) (demoQc q)) = some e := by
      subst hdb
      rw [List.find?_append]
      have : l1.find? (demoPass2 (demoQl q) (demoQc q)) = none := by
        rw [List.find?_eq_none]
        intro x hx
        simp [hl1 x hx]
      simp [this, List.find?_cons, he]
    simp [demoFind, h1, h2]
  · intro h1 h2
    simp [demoFind, h1, h2]

/-- C6 amended witness: on a query matching nothing, the lookup falls
through to the special-case groups. -/
theorem C6_amended_witness :
    demoFind SAMPLE_PRODUCTS "zzz" = specialFind (demoQl "zzz") SAMPLE_PRODUCTS :=
  (C6_amended_pass_structure SAMPLE_PRODUCTS "zzz").2.2 (by decide) (by decide)

/-- C7 counterexample: the non-empty query "error" makes the offline
catalog adapter synthesize the brand "Error" (the capitalized first word of
the query), so the adapter's brand is not always distinct from the
`"Error"` sentinel. -/
theorem C7_counterexample :
    ("error" : String) ≠ "" ∧ (demo_icecat_search "error").brand = "Error" :=
  ⟨by decide, by decide⟩

end PDC

namespace PDC

/-- C8: the registry adapter is a pure format gate on the
hyphen-and-space-stripped query: the two demo GTINs resolve as the claim
states, a valid-length digit string outside the dataset yields brand
"Unknown" with the explanatory status, and any other normalized string
yields the informational "GS1 Search" record.  The adapter is a total
function of the query, so it never raises. -/
theorem C8_registry_format_gate :
    lookupSpec (gs1_search_product "012345678905").specifications "gs1_verified" =
        some (.str "Yes") ∧
    (gs1_search_product "1234567890123").brand = "Tech Corp" ∧
    (∀ q, gtinValid (gs1Norm q) = true →
      sample_gtins.find? (fun e => e.1 = gs1Norm q) = none →
      (gs1_search_product q).brand = "Unknown" ∧
      lookupSpec (gs1_search_product q).specifications "status" =
        some (.str "Valid GTIN format but not found in demo database")) ∧
    (∀ q, gtinValid (gs1Norm q) = false → gs1_search_product q = gs1InfoRec q) ∧
    (gs1_search_product "abc123").brand = "GS1 Search" := by
  refine ⟨by decide, by decide, ?_, ?_, by decide⟩
  · intro q h1 h2
    simp only [gs1_search_product, h1, if_true, demo_gs1_search, h2, Option.map_none]
    exact ⟨rfl, rfl⟩
  · intro q h
    simp [gs1_search_product, h]

/-- C8 witness: concrete instances of the two conditional branches — a
valid-length digit string outside the demo dataset, and a non-GTIN query. -/
theorem C8_witness :
    ((gs1_search_product "00000000").brand = "Unknown" ∧
      lookupSpec (gs1_search_product "00000000").specifications "status" =
        some (.str "Valid GTIN format but not found in demo database")) ∧
    gs1_search_product "abc123" = gs1InfoRec "abc123" :=
  ⟨C8_registry_format_gate.2.2.1 "00000000" (by decide) (by decide),
   C8_registry_format_gate.2.2.2.1 "abc123" (by decide)⟩

/-- The query column of a bulk row always echoes the input query, whether
the resolution succeeded or was replaced by the error placeholder. -/
theorem bulkStep_query (resolve : String → Except String ProviderResult) (q : String) :
    (bulkStep resolve q).query = q := by
  unfold bulkStep
  cases resolve q <;> rfl

/-- C9: the bulk driver truncates to at most `maxCount` queries preserving
order, emits exactly one row per remaining query in input order, keeps the
successful rows, and substitutes the all-"Error" placeholder (query column
excepted) for a query whose resolution raises; in particular three queries
with `maxCount = 2` give exactly the two rows for "a" and "b". -/
theorem C9_bulk_order_and_cap (resolve : String → Except String ProviderResult)
    (queries : List String) (maxCount : Nat) :
    (bulkProcess resolve queries maxCount).length = min maxCount queries.length ∧
    (bulkProcess resolve queries maxCount).map (fun r => r.query) = queries.take maxCount ∧
    (∀ q p, resolve q = .ok p → bulkStep resolve q = rowOf q p) ∧
    (∀ q e, resolve q = .error e → bulkStep resolve q = errorRow q) ∧
    (bulkProcess resolve ["a", "b", "c"] 2).map (fun r => r.query) = ["a", "b"] := by
  refine ⟨?_, ?_, ?_, ?_, ?_⟩
  · simp [bulkProcess]
  · simp [bulkProcess, List.map_map, Function.comp_def, bulkStep_query]
  · intro q p h
    simp [bulkStep, h]
  · intro q e h
    simp [bulkStep, h]
  · simp [bulkProcess, List.map_map, Function.comp_def, bulkStep_query]

/-- C9 witness: a concrete resolver that succeeds on "a"/"b" and raises on
"c", exercising the cap, the success row and the error placeholder row. -/
theorem C9_witness :
    (bulkProcess (fun s => if s = "c" then .error "boom" else .ok (mkBrand "Dell"))
        ["a", "b", "c"] 2).map (fun r => r.query) = ["a", "b"] ∧
    bulkStep (fun s => if s = "c" then .error "boom" else .ok (mkBrand "Dell")) "a" =
      rowOf "a" (mkBrand "Dell") ∧
    bulkStep (fun s => if s = "c" then .error "boom" else .ok (mkBrand "Dell")) "c" =
      errorRow "c" := by
  have h := C9_bulk_order_and_cap
    (fun s => if s = "c" then .error "boom" else .ok (mkBrand "Dell")) ["a", "b", "c"] 2
  exact ⟨h.2.2.2.2, h.2.2.1 "a" (mkBrand "Dell") rfl, h.2.2.2.1 "c" "boom" rfl⟩

end PDC

namespace PDC

/-- The claim's first example dictionary: icecat answered "Dell", google
answered the "Unknown" sentinel. -/
def resDellUnknown : SourceResults :=
  { google := some (mkBrand "Unknown"), icecat := some (mkBrand "Dell"), gs1 := none }

/-- The claim's second example dictionary: icecat answered the "Not Found"
sentinel, google answered "Sony". -/
def resSonyNotFound : SourceResults :=
  { google := some (mkBrand "Sony"), icecat := some (mkBrand "Not Found"), gs1 := none }

/-- C1: the fuser picks the base by fixed priority — the catalog (icecat)
result unless its brand is "Not Found", else the web-search (google)
result unless its brand is "Unknown", else the registry (gs1) result if
present, else the single available result — and carries the base's
non-fusion fields into the fused record; in particular brand "Dell" wins
over google's "Unknown", and google's "Sony" wins over icecat's
"Not Found". -/
theorem C1_fusion_priority (res : SourceResults) (q : String) :
    (∀ ri, res.icecat = some ri → ri.brand ≠ "Not Found" →
      coreOf (combine_results res q) = coreOf ri) ∧
    (∀ rg, icecatOk res = false → res.google = some rg → rg.brand ≠ "Unknown" →
      coreOf (combine_results res q) = coreOf rg) ∧
    (∀ rs, icecatOk res = false → googleOk res = false → res.gs1 = some rs →
      coreOf (combine_results res q) = coreOf rs) ∧
    (∀ nm r, res.entries = [(nm, r)] → coreOf (combine_results res q) = coreOf r) ∧
    (combine_results resDellUnknown q).brand = "Dell" ∧
    (combine_results resSonyNotFound q).brand = "Sony" := by
  refine ⟨?_, ?_, ?_, ?_, rfl, rfl⟩
  · intro ri h hb
    have hok : icecatOk res = true := by simp [icecatOk, h, hb]
    simp [combine_results, baseOf, hok, h, coreOf]
  · intro rg hik h hb
    have hok : googleOk res = true := by simp [googleOk, h, hb]
    simp [combine_results, baseOf, hik, hok, h, coreOf]
  · intro rs hik hg h
    simp [combine_results, baseOf, hik, hg, h, coreOf]
  · intro nm r h
    rcases res with ⟨g, i, o⟩
    rcases g with _ | rg <;> rcases i with _ | ri <;> rcases o with _ | ro <;>
      simp [SourceResults.entries, Option.toList] at h
    · obtain ⟨hnm, hx⟩ := h
      subst hx
      simp [combine_results, baseOf, icecatOk, googleOk, coreOf]
    · obtain ⟨hnm, hx⟩ := h
      subst hx
      by_cases hb : ri.brand = "Not Found" <;>
        simp [combine_results, baseOf, icecatOk, googleOk, SourceResults.entries,
          Option.toList, coreOf, hb]
    · obtain ⟨hnm, hx⟩ := h
      subst hx
      by_cases hb : rg.brand = "Unknown" <;>
        simp [combine_results, baseOf, icecatOk, googleOk, SourceResults.entries,
          Option.toList, coreOf, hb]

/-- C1 witness: the priority branches applied at the two concrete result
dictionaries named by the claim. -/
theorem C1_witness :
    coreOf (combine_results resDellUnknown "q") = coreOf (mkBrand "Dell") ∧
    coreOf (combine_results resSonyNotFound "q") = coreOf (mkBrand "Sony") :=
  ⟨(C1_fusion_priority resDellUnknown "q").1 (mkBrand "Dell") rfl (by decide),
   (C1_fusion_priority resSonyNotFound "q").2.1 (mkBrand "Sony") (by decide) rfl (by decide)⟩

end PDC

namespace PDC

/-- An adapter call as the resolver actually experiences it: the call can
raise (`.error`), return a record (`.ok (some r)`), or — the path C3
establishes for the credentialed web-search adapter — return `None`
(`.ok none`). -/
abbrev AdapterFn := String → Except String (Option ProviderResult)

/-- The adapter instances held by `MultiSourceSearcher`, typed with the
full three-outcome adapter behavior (including the returns-`None` case). -/
structure MultiSourceSearcherN where
  gemini_searcher : Option AdapterFn
  icecat_searcher : Option AdapterFn
  gs1_searcher : Option AdapterFn

/-- One provider step of `MultiSourceSearcher.search_product` over a
three-outcome adapter: when the provider is enabled and has an instance, a
raise is caught and labelled, while whatever the adapter returned — a
record or `None` — is stored in the result dict as-is (a stored `None` is
a present dict entry). -/
def gatherOneN (name : String) (label : String) (enabled : List String)
    (fn : Option AdapterFn) (q : String) :
    Option (Option ProviderResult) × List String :=
  match if name ∈ enabled then fn else none with
  | none => (none, [])
  | some f =>
    match f q with
    | .ok r => (some r, [])
    | .error e => (none, [label ++ " search error: " ++ e])

/-- The method `GeminiProductSearcher.search_product` with
`use_demo_mode=None`, exactly as the resolver invokes it: the offline
dataset lookup when no truthy key is configured, else the credentialed
path against the backend response `resp`. -/
def gemini_search_product (db : DB) (api_key : Option String)
    (resp : Except String GeminiResponse) : AdapterFn := fun q =>
  match api_key with
  | none => .ok (some (demo_search db q))
  | some k =>
    if k.isEmpty then .ok (some (demo_search db q))
    else real_api_search (some k) q resp

/-- The uncaught `AttributeError` that `_combine_results` raises when it
dereferences a stored `None`: every path through `_combine_results`
touches every stored result (the base-selection guards call `.get`, the
chosen base is `.copy()`-ed, and the `all_sources` loop calls `.get` on
each result), so one stored `None` always crashes the call. -/
def noneAttributeError : String := "AttributeError: NoneType has no attribute get"

/-- The resolver `MultiSourceSearcher.search_product` over three-outcome
adapters: gathering always completes, because each provider call sits in
its own `try` with the raise converted to a labelled error string; but
`_combine_results` runs outside every `try`, and when the non-empty result
dict holds a stored `None` it raises `AttributeError` — the `.error`
outcome of the whole call. -/
def search_productN (q : String) (enabled : List String) (s : MultiSourceSearcherN) :
    Except String ProviderResult :=
  let (g, eg) := gatherOneN "google" "Google" enabled s.gemini_searcher q
  let (i, ei) := gatherOneN "icecat" "Icecat" enabled s.icecat_searcher q
  let (o, eo) := gatherOneN "gs1" "GS1" enabled s.gs1_searcher q
  if g.isNone && i.isNone && o.isNone then
    .ok (noResultsRec q enabled (eg ++ ei ++ eo))
  else if g = some none ∨ i = some none ∨ o = some none then
    .error noneAttributeError
  else
    .ok (combine_results { google := g.join, icecat := i.join, gs1 := o.join } q)

/-- A resolver configuration whose google adapter always raises with
message `e` and whose icecat adapter is `f`; gs1 has no instance. -/
def failingGoogleCfgN (e : String) (f : AdapterFn) : MultiSourceSearcherN :=
  { gemini_searcher := some (fun _ => .error e), icecat_searcher := some f,
    gs1_searcher := none }

/-- A resolver configuration with only a google adapter instance. -/
def soloGoogleCfgN (gfn : AdapterFn) : MultiSourceSearcherN :=
  { gemini_searcher := some gfn, icecat_searcher := none,
    gs1_searcher := none }

/-- The configuration the app builds for a key that passes its length
check: the credentialed web-search adapter against one backend response;
no other adapter instances. -/
def credentialedGoogleCfg (resp : Except String GeminiResponse) : MultiSourceSearcherN :=
  soloGoogleCfgN (gemini_search_product SAMPLE_PRODUCTS (some "AIzaSyTestKey1234567890") resp)

/-- The HTTP 200 backend response whose JSON body has no candidates — the
C3 failing input. -/
def emptyCandidatesResp : Except String GeminiResponse :=
  .ok { status := 200, text := "", candidates := [] }

/-- C2 counterexample: with a validated credential configured (a 23-character
key, accepted by the app) and the backend answering HTTP 200 without
candidates, the web-search adapter returns `None` without raising (the C3
path); the result dict is then non-empty, `_combine_results` runs outside
every `try` and dereferences the stored `None`, and the resolver call
raises `AttributeError` instead of returning a record — refuting the
never-raises claim at this concrete query, enabled set and
configuration. -/
theorem C2_counterexample :
    gemini_search_product SAMPLE_PRODUCTS (some "AIzaSyTestKey1234567890")
        emptyCandidatesResp "iPhone 15" = .ok none ∧
    search_productN "iPhone 15" ["google"] (credentialedGoogleCfg emptyCandidatesResp) =
      .error noneAttributeError :=
  ⟨rfl, rfl⟩

/-- A provider step never stores `None` when its adapter (if any) does not
return `.ok none` on the query. -/
theorem gatherOneN_fst_ne_some_none (name label : String) (enabled : List String)
    (fn : Option AdapterFn) (q : String)
    (h : ∀ f, fn = some f → f q ≠ .ok none) :
    (gatherOneN name label enabled fn q).1 ≠ some none := by
  unfold gatherOneN
  cases hif : (if name ∈ enabled then fn else none) with
  | none => simp
  | some f =>
    have hfn : fn = some f := by
      by_cases hm : name ∈ enabled
      · rw [if_pos hm] at hif
        exact hif
      · rw [if_neg hm] at hif
        exact absurd hif (by simp)
    cases hq : f q with
    | ok r =>
      cases r with
      | none => exact absurd hq (h f hfn)
      | some p => simp [hq]
    | error e => simp [hq]

/-- C2 amended: a raise inside one enabled provider is caught, recorded as
the labelled string "<Label> search error: ...", and aborts neither the
remaining providers nor the call; the resolver returns a well-formed
record for every query and enabled subset (including the empty set)
provided no configured adapter call returns `None` — which holds in every
demo-mode configuration.  But when an enabled adapter does return `None`,
as the credentialed web-search adapter does on a 2xx response without
candidates, the fuser dereferences the stored `None` outside every catch
and the whole call raises `AttributeError`. -/
theorem C2_amended_isolation_unless_none (q e : String) (f : AdapterFn) (r : ProviderResult)
    (hf : f q = .ok (some r)) :
    (search_productN q ["google", "icecat"] (failingGoogleCfgN e f) =
      .ok (combine_results { google := none, icecat := some r, gs1 := none } q)) ∧
    (∀ s : MultiSourceSearcherN, search_productN q [] s = .ok (noResultsRec q [] [])) ∧
    (search_productN q ["google"] (failingGoogleCfgN e f) =
      .ok (noResultsRec q ["google"] ["Google search error: " ++ e])) ∧
    (∀ (s : MultiSourceSearcherN) (enabled : List String),
      (∀ f', s.gemini_searcher = some f' → f' q ≠ .ok none) →
      (∀ f', s.icecat_searcher = some f' → f' q ≠ .ok none) →
      (∀ f', s.gs1_searcher = some f' → f' q ≠ .ok none) →
      ∃ res, search_productN q enabled s = .ok res) ∧
    (∀ gN : AdapterFn, gN q = .ok none →
      search_productN q ["google"] (soloGoogleCfgN gN) = .error noneAttributeError) := by
  refine ⟨?_, ?_, ?_, ?_, ?_⟩
  · simp [search_productN, gatherOneN, failingGoogleCfgN, hf, Option.join]
  · intro s
    simp [search_productN, gatherOneN]
  · simp [search_productN, gatherOneN, failingGoogleCfgN]
  · intro s enabled hg hi ho
    have hg' := gatherOneN_fst_ne_some_none "google" "Google" enabled s.gemini_searcher q hg
    have hi' := gatherOneN_fst_ne_some_none "icecat" "Icecat" enabled s.icecat_searcher q hi
    have ho' := gatherOneN_fst_ne_some_none "gs1" "GS1" enabled s.gs1_searcher q ho
    rcases hG : gatherOneN "google" "Google" enabled s.gemini_searcher q with ⟨g, eg⟩
    rcases hI : gatherOneN "icecat" "Icecat" enabled s.icecat_searcher q with ⟨i, ei⟩
    rcases hO : gatherOneN "gs1" "GS1" enabled s.gs1_searcher q with ⟨o, eo⟩
    rw [hG] at hg'
    rw [hI] at hi'
    rw [hO] at ho'
    have hc : ¬(g = some none ∨ i = some none ∨ o = some none) := by
      intro hcon
      rcases hcon with h | h | h
      · exact hg' h
      · exact hi' h
      · exact ho' h
    simp only [search_productN, hG, hI, hO]
    by_cases hE : (g.isNone && i.isNone && o.isNone) = true
    · rw [if_pos hE]
      exact ⟨_, rfl⟩
    · rw [if_neg hE, if_neg hc]
      exact ⟨_, rfl⟩
  · intro gN hgn
    simp [search_productN, gatherOneN, soloGoogleCfgN, hgn]

/-- C2 amended witness: concrete instances of the isolation branch, the
all-fail branch and the `None`-poisoning branch. -/
theorem C2_amended_witness :
    search_productN "x" ["google", "icecat"]
        (failingGoogleCfgN "boom" (fun _ => .ok (some (mkBrand "Dell")))) =
      .ok (combine_results { google := none, icecat := some (mkBrand "Dell"), gs1 := none } "x") ∧
    search_productN "x" ["google"] (failingGoogleCfgN "boom" (fun _ => .ok (some (mkBrand "Dell")))) =
      .ok (noResultsRec "x" ["google"] ["Google search error: " ++ "boom"]) ∧
    search_productN "x" ["google"] (soloGoogleCfgN (fun _ => .ok none)) =
      .error noneAttributeError := by
  have h := C2_amended_isolation_unless_none "x" "boom"
    (fun _ => .ok (some (mkBrand "Dell"))) (mkBrand "Dell") rfl
  exact ⟨h.1, h.2.2.1, h.2.2.2.2 (fun _ => .ok none) rfl⟩

end PDC

namespace PDC

/-- ASCII lower-casing can only produce a space from a space. -/
theorem lowerC_eq_space {c : Char} (h : lowerC c = ' ') : c = ' ' := by
  unfold lowerC at h
  split at h <;> simp_all

/-- Tokens produced by the whitespace-split worker contain no whitespace
characters (given the accumulator contains none). -/
theorem splitWsGo_no_ws (l : List Char) :
    ∀ (cur : List Char), (∀ c ∈ cur, isWs c = false) →
      ∀ w ∈ splitWsGo cur l, ∀ c ∈ w, isWs c = false := by
  induction l with
  | nil =>
    intro cur hcur w hw c hc
    simp only [splitWsGo] at hw
    split at hw
    · simp at hw
    · simp only [List.mem_singleton] at hw
      subst hw
      exact hcur c (List.mem_reverse.1 hc)
  | cons a t ih =>
    intro cur hcur w hw c hc
    simp only [splitWsGo] at hw
    by_cases ha : isWs a = true
    · rw [if_pos ha] at hw
      by_cases hcurE : cur.isEmpty = true
      · rw [if_pos hcurE] at hw
        exact ih [] (by simp) w hw c hc
      · rw [if_neg hcurE] at hw
        rcases List.mem_cons.1 hw with rfl | htail
        · exact hcur c (List.mem_reverse.1 hc)
        · exact ih [] (by simp) w htail c hc
    · rw [if_neg ha] at hw
      refine ih (a :: cur) ?_ w hw c hc
      intro x hx
      rcases List.mem_cons.1 hx with rfl | hx'
      · simpa using ha
      · exact hcur x hx'

/-- Python `capitalize` of a whitespace-free word cannot be the two-word
sentinel "Not Found". -/
theorem capitalizePy_ne_not_found {s : String} (hs : ∀ c ∈ s.data, isWs c = false) :
    capitalizePy s ≠ "Not Found" := by
  intro heq
  cases s with
  | mk l =>
    cases l with
    | nil => exact absurd heq (by decide)
    | cons c t =>
      have hdata : (capitalizePy (String.mk (c :: t))).data = ("Not Found" : String).data :=
        congrArg String.data heq
      simp only [capitalizePy] at hdata
      have h2 : t.map lowerC = ['o', 't', ' ', 'F', 'o', 'u', 'n', 'd'] :=
        (List.cons.injEq _ _ _ _ ▸ hdata).2
      have hsp : ' ' ∈ t.map lowerC := by
        rw [h2]
        decide
      obtain ⟨x, hx, hlx⟩ := List.mem_map.1 hsp
      have hxs : x = ' ' := lowerC_eq_space hlx
      subst hxs
      have := hs ' ' (List.mem_cons_of_mem c hx)
      exact absurd this (by decide)

/-- The synthesized fallback brand of the catalog adapter is never the
"Not Found" sentinel: the fixed brand list does not contain it, a
capitalized single word cannot contain a space, and "Generic Brand" is not
it. -/
theorem extract_brand_ne_not_found (q : String) :
    extract_brand_from_query q ≠ "Not Found" := by
  unfold extract_brand_from_query
  cases hf : icecatBrands.find? (fun b => substrB (pyLower b) (pyLower q)) with
  | some b =>
    have hb : b ∈ icecatBrands := List.mem_of_find?_eq_some hf
    have hall : icecatBrands.all (fun x => decide (x ≠ "Not Found")) = true := by decide
    exact of_decide_eq_true (List.all_eq_true.1 hall b hb)
  | none =>
    cases hsp : pySplitWs q with
    | nil => decide
    | cons w ws =>
      apply capitalizePy_ne_not_found
      intro c hc
      have hw : w ∈ pySplitWs q := by
        rw [hsp]
        exact List.mem_cons_self w ws
      unfold pySplitWs at hw
      obtain ⟨l, hl, rfl⟩ := List.mem_map.1 hw
      exact splitWsGo_no_ws q.data [] (by simp) l hl c hc

/-- Every entry of the catalog demo database carries one of the four
literal brands. -/
theorem icecat_demo_brand_mem (q : String) :
    ∀ e ∈ icecatDemoProducts q, e.data.brand ∈ ["Samsung", "Dell", "Gembird", "Apple"] := by
  intro e he
  fin_cases he <;> simp [icecatDemoProducts]

/-- The catalog adapter's offline search never produces the "Not Found"
sentinel brand, on any query whatsoever. -/
theorem icecat_brand_ne_not_found (q : String) :
    (demo_icecat_search q).brand ≠ "Not Found" := by
  have hmem4 : ∀ b, b ∈ ["Samsung", "Dell", "Gembird", "Apple"] → b ≠ ("Not Found" : String) := by
    decide
  simp only [demo_icecat_search]
  cases h1 : (icecatDemoProducts q).find? (fun e => e.triggers.all fun t => substrB t (pyLower q)) with
  | some e =>
    have := icecat_demo_brand_mem q e (List.mem_of_find?_eq_some h1)
    exact hmem4 _ this
  | none =>
    cases h2 : (icecatDemoProducts q).find? (fun e => e.triggers.any fun t => substrB t (pyLower q)) with
    | some e =>
      have := icecat_demo_brand_mem q e (List.mem_of_find?_eq_some h2)
      exact hmem4 _ this
    | none =>
      exact extract_brand_ne_not_found q

end PDC

namespace PDC

/-- C7 amended: for every non-empty query with no credential configured the
catalog adapter's brand is never "Not Found"; when no trigger entry
matches, it returns the synthesized generic record, whose brand is the
first listed known brand found in the query, else the capitalized first
word, else "Generic Brand".  (The original claim's "never Error" part is
false: the capitalized first word can itself be "Error", see the
counterexample.) -/
theorem C7_amended_catalog_brand (q : String) (_hq : q ≠ "") :
    (demo_icecat_search q).brand ≠ "Not Found" ∧
    ((icecatDemoProducts q).find? (fun e => e.triggers.all fun t => substrB t (pyLower q)) = none →
      (icecatDemoProducts q).find? (fun e => e.triggers.any fun t => substrB t (pyLower q)) = none →
      demo_icecat_search q = icecatGenericResult q ∧
      (demo_icecat_search q).brand = extract_brand_from_query q) := by
  refine ⟨icecat_brand_ne_not_found q, ?_⟩
  intro h1 h2
  simp [demo_icecat_search, h1, h2, icecatGenericResult]

/-- C7 witness: a concrete non-empty query matching no trigger entry,
where the adapter synthesizes the generic record with the capitalized
first word as brand. -/
theorem C7_witness :
    (demo_icecat_search "zelda console").brand ≠ "Not Found" ∧
    demo_icecat_search "zelda console" = icecatGenericResult "zelda console" ∧
    (demo_icecat_search "zelda console").brand = "Zelda" := by
  have h := C7_amended_catalog_brand "zelda console" (by decide)
  have h2 := h.2 (by decide) (by decide)
  exact ⟨h.1, h2.1, by rw [h2.2]; decide⟩

/-- The resolver configuration whose catalog slot is the source's icecat
adapter (demo path, as `search_product` always uses) and whose other slots
are arbitrary. -/
def cfgWithIcecat (g o : Option ProviderFn) : MultiSourceSearcher :=
  { gemini_searcher := g,
    icecat_searcher := some (fun s => .ok (icecat_search_product none none s)),
    gs1_searcher := o }


/-- C10: the catalog adapter's demo path never produces the "Not Found"
sentinel, so whenever icecat is enabled and configured the fuser always
selects the icecat record as the base (its non-fusion fields are the
icecat record's, and it is marked multi-source) — the web-search and
registry branches of the priority chain never fire in such runs. -/
theorem C10_icecat_always_base (q : String) (enabled : List String)
    (g o : Option ProviderFn) (h : "icecat" ∈ enabled) :
    (demo_icecat_search q).brand ≠ "Not Found" ∧
    coreOf (search_product q enabled (cfgWithIcecat g o)) = coreOf (demo_icecat_search q) ∧
    (search_product q enabled (cfgWithIcecat g o)).multi_source = true := by
  refine ⟨icecat_brand_ne_not_found q, ?_⟩
  rcases hgG : gatherOne "google" "Google" enabled g q with ⟨gro, gre⟩
  rcases hgO : gatherOne "gs1" "GS1" enabled o q with ⟨oro, ore⟩
  have hgI : gatherOne "icecat" "Icecat" enabled
      (some fun s => .ok (icecat_search_product none none s)) q =
        (some (demo_icecat_search q), []) := by
    simp [gatherOne, h, icecat_search_product]
  have hik : icecatOk { google := gro, icecat := some (demo_icecat_search q), gs1 := oro } = true := by
    simp [icecatOk, bne_iff_ne]
    exact icecat_brand_ne_not_found q
  simp only [search_product, cfgWithIcecat, hgG, hgO, hgI]
  cases gro <;> cases oro <;>
    simp [SourceResults.entries, Option.toList, combine_results, baseOf, hik, coreOf]

end PDC

namespace PDC

/-- After `m[k] = v`, key `k` is present. -/
theorem any_key_setSpec_self (m : List (String × SpecVal)) (k : String) (v : SpecVal) :
    (setSpec m k v).any (fun p => p.1 = k) = true := by
  unfold setSpec
  split
  case isTrue h =>
    rcases List.any_eq_true.1 h with ⟨p, hp, hpk⟩
    refine List.any_eq_true.2 ⟨(k, v), List.mem_map.2 ⟨p, hp, ?_⟩, by simp⟩
    simp [of_decide_eq_true hpk]
  case isFalse h =>
    exact List.any_eq_true.2 ⟨(k, v), by simp, by simp⟩

/-- After `m[k] = v`, every stored entry for `k` holds `v`. -/
theorem mem_setSpec_key (m : List (String × SpecVal)) (k : String) (v : SpecVal) :
    ∀ p ∈ setSpec m k v, p.1 = k → p.2 = v := by
  intro p hp hk
  unfold setSpec at hp
  split at hp
  case isTrue h =>
    obtain ⟨x, hx, rfl⟩ := List.mem_map.1 hp
    by_cases hxk : x.1 = k
    · simp [hxk]
    · rw [if_neg hxk] at hk ⊢
      exact absurd hk hxk
  case isFalse h =>
    rcases List.mem_append.1 hp with hm | hone
    · have hfalse : (m.any fun p => decide (p.1 = k)) = false :=
        Bool.eq_false_iff.2 h
      have := List.any_eq_false.1 hfalse p hm
      simp at this
      exact absurd hk this
    · simp at hone
      rw [hone]
  

/-- Writing a different key preserves "every stored entry for k' holds v'". -/
theorem setSpec_preserves_key_vals (m : List (String × SpecVal)) (k : String) (v : SpecVal)
    (k' : String) (v' : SpecVal) (hne : k' ≠ k)
    (h : ∀ p ∈ m, p.1 = k' → p.2 = v') :
    ∀ p ∈ setSpec m k v, p.1 = k' → p.2 = v' := by
  intro p hp hpk
  unfold setSpec at hp
  split at hp
  case isTrue hc =>
    obtain ⟨x, hx, rfl⟩ := List.mem_map.1 hp
    by_cases hxk : x.1 = k
    · rw [if_pos hxk] at hpk
      simp at hpk
      exact absurd hpk.symm hne
    · rw [if_neg hxk] at hpk ⊢
      exact h x hx hpk
  case isFalse hc =>
    rcases List.mem_append.1 hp with hm | hone
    · exact h p hm hpk
    · simp at hone
      rw [hone] at hpk
      simp at hpk
      exact absurd hpk.symm hne

/-- Writing a different key preserves the presence of key k'. -/
theorem any_key_setSpec_preserve (m : List (String × SpecVal)) (k : String) (v : SpecVal)
    (k' : String) (hne : k' ≠ k)
    (h : m.any (fun p => p.1 = k') = true) :
    (setSpec m k v).any (fun p => p.1 = k') = true := by
  obtain ⟨p, hp, hpk⟩ := List.any_eq_true.1 h
  have hp1 : p.1 = k' := of_decide_eq_true hpk
  unfold setSpec
  split
  case isTrue hc =>
    refine List.any_eq_true.2 ⟨_, List.mem_map.2 ⟨p, hp, rfl⟩, ?_⟩
    have hpnk : ¬p.1 = k := fun hk => hne (hp1 ▸ hk)
    rw [if_neg hpnk]
    exact hpk
  case isFalse hc =>
    exact List.any_eq_true.2 ⟨p, List.mem_append_left _ hp, hpk⟩

/-- If key k is present and every stored entry for it already holds v,
then `m[k] = v` changes nothing. -/
theorem setSpec_saturated (m : List (String × SpecVal)) (k : String) (v : SpecVal)
    (h1 : m.any (fun p => p.1 = k) = true)
    (h2 : ∀ p ∈ m, p.1 = k → p.2 = v) :
    setSpec m k v = m := by
  unfold setSpec
  rw [if_pos h1]
  have hcong : ∀ p ∈ m, (if p.1 = k then (k, v) else p) = p := by
    intro p hp
    by_cases hpk : p.1 = k
    · rw [if_pos hpk, ← hpk, ← h2 p hp hpk]
    · rw [if_neg hpk]
  simpa using List.map_congr_left hcong

/-- Re-writing the two distinct synthetic keys with the same values is the
identity: the core of the resolver's idempotence on the shared dataset. -/
theorem setSpec_idem2 (m : List (String × SpecVal)) (c s : String) (v w : SpecVal)
    (hcs : c ≠ s) :
    setSpec (setSpec (setSpec (setSpec m c v) s w) c v) s w =
      setSpec (setSpec m c v) s w := by
  have hc_any : (setSpec (setSpec m c v) s w).any (fun p => p.1 = c) = true :=
    any_key_setSpec_preserve (setSpec m c v) s w c hcs (any_key_setSpec_self m c v)
  have hc_all : ∀ p ∈ setSpec (setSpec m c v) s w, p.1 = c → p.2 = v :=
    setSpec_preserves_key_vals (setSpec m c v) s w c v hcs (mem_setSpec_key m c v)
  rw [setSpec_saturated _ c v hc_any hc_all]
  exact setSpec_saturated _ s w (any_key_setSpec_self (setSpec m c v) s w)
    (mem_setSpec_key (setSpec m c v) s w)

/-- Overwriting an entry's specifications keeps its key. -/
theorem entrySetSpecs_fst (k : String) (S : List (String × SpecVal)) (e : String × ProviderResult) :
    (entrySetSpecs k S e).1 = e.1 := by
  unfold entrySetSpecs
  split <;> rfl

/-- Overwriting an entry's specifications keeps its brand. -/
theorem entrySetSpecs_brand (k : String) (S : List (String × SpecVal)) (e : String × ProviderResult) :
    (entrySetSpecs k S e).2.brand = e.2.brand := by
  unfold entrySetSpecs
  split <;> rfl

/-- Overwriting an entry's specifications keeps its model. -/
theorem entrySetSpecs_model (k : String) (S : List (String × SpecVal)) (e : String × ProviderResult) :
    (entrySetSpecs k S e).2.model = e.2.model := by
  unfold entrySetSpecs
  split <;> rfl

/-- Finding commutes with the specification overwrite when the predicate
only looks at fields the overwrite preserves. -/
theorem find?_entrySetSpecs (db : DB) (k : String) (S : List (String × SpecVal))
    (p : String × ProviderResult → Bool)
    (hp : ∀ e, p (entrySetSpecs k S e) = p e) :
    (dbSetSpecs db k S).find? p = (db.find? p).map (entrySetSpecs k S) := by
  unfold dbSetSpecs
  have hfun : (p ∘ entrySetSpecs k S) = p := funext hp
  rw [List.find?_map, hfun]

/-- Key presence is unchanged by the specification overwrite. -/
theorem hasKey_dbSetSpecs (db : DB) (k : String) (S : List (String × SpecVal)) (key : String) :
    hasKey (dbSetSpecs db k S) key = hasKey db key := by
  unfold hasKey dbSetSpecs
  rw [List.any_map]
  congr 1
  funext e
  simp [entrySetSpecs_fst]

/-- Entry lookup commutes with the specification overwrite. -/
theorem lookupEntry_dbSetSpecs (db : DB) (k : String) (S : List (String × SpecVal)) (key : String) :
    lookupEntry (dbSetSpecs db k S) key = (lookupEntry db key).map (entrySetSpecs k S) := by
  unfold lookupEntry
  exact find?_entrySetSpecs db k S _ (fun e => by simp [entrySetSpecs_fst])

/-- The special-case keyword groups commute with the specification
overwrite (they only consult dataset keys). -/
theorem specialFind_dbSetSpecs (ql : String) (db : DB) (k : String)
    (S : List (String × SpecVal)) :
    specialFind ql (dbSetSpecs db k S) = (specialFind ql db).map (entrySetSpecs k S) := by
  unfold specialFind
  rw [hasKey_dbSetSpecs, hasKey_dbSetSpecs, hasKey_dbSetSpecs, hasKey_dbSetSpecs,
    lookupEntry_dbSetSpecs, lookupEntry_dbSetSpecs, lookupEntry_dbSetSpecs,
    lookupEntry_dbSetSpecs]
  split
  · rfl
  · split
    · rfl
    · split
      · rfl
      · split
        · rfl
        · rfl

/-- The offline lookup's matching is blind to `specifications`, so it
commutes with the specification overwrite of one entry. -/
theorem demoFind_dbSetSpecs (db : DB) (k : String) (S : List (String × SpecVal)) (q : String) :
    demoFind (dbSetSpecs db k S) q = (demoFind db q).map (entrySetSpecs k S) := by
  have hp1 : ∀ e, demoPass1 (demoQl q) (entrySetSpecs k S e) = demoPass1 (demoQl q) e := by
    intro e
    simp [demoPass1, entrySetSpecs_fst]
  have hp2 : ∀ e, demoPass2 (demoQl q) (demoQc q) (entrySetSpecs k S e) =
      demoPass2 (demoQl q) (demoQc q) e := by
    intro e
    simp [demoPass2, entrySetSpecs_fst, entrySetSpecs_brand, entrySetSpecs_model]
  simp only [demoFind]
  rw [find?_entrySetSpecs db k S _ hp1, find?_entrySetSpecs db k S _ hp2]
  cases h1 : db.find? (demoPass1 (demoQl q)) with
  | some e => rfl
  | none =>
    cases h2 : db.find? (demoPass2 (demoQl q) (demoQc q)) with
    | some e => rfl
    | none => exact specialFind_dbSetSpecs (demoQl q) db k S

/-- The "not found" record is unchanged by the specification overwrite
(it only enumerates dataset keys). -/
theorem demoNotFound_dbSetSpecs (db : DB) (k : String) (S : List (String × SpecVal)) (q : String) :
    demoNotFound (dbSetSpecs db k S) q = demoNotFound db q := by
  have hkeys : (dbSetSpecs db k S).map Prod.fst = db.map Prod.fst := by
    unfold dbSetSpecs
    rw [List.map_map]
    have hfun : (Prod.fst ∘ entrySetSpecs k S) = Prod.fst := funext (entrySetSpecs_fst k S)
    rw [hfun]
  unfold demoNotFound
  rw [hkeys]

/-- A result dict whose google slot holds `p`. -/
def resG (p : ProviderResult) (I O : Option ProviderResult) : SourceResults :=
  { google := some p, icecat := I, gs1 := O }

/-- The base tag only consults the google record's brand, not its
specifications. -/
theorem baseTag_resG_congr (p p' : ProviderResult) (I O : Option ProviderResult)
    (hb : p'.brand = p.brand) :
    baseTag (resG p' I O) = baseTag (resG p I O) := by
  simp [baseTag, icecatOk, googleOk, SourceResults.entries, resG, hb]

/-- When the base tag is "google", the base record is the google slot. -/
theorem baseOf_resG_google (p : ProviderResult) (I O : Option ProviderResult)
    (hb : baseTag (resG p I O) = some "google") :
    baseOf (resG p I O) = some p := by
  unfold baseTag at hb
  unfold baseOf
  by_cases h1 : icecatOk (resG p I O) = true
  · rw [if_pos h1] at hb
    exact absurd (Option.some.inj hb) (by decide)
  · rw [if_neg h1] at hb
    rw [if_neg h1]
    by_cases h2 : googleOk (resG p I O) = true
    · rw [if_pos h2] at hb ⊢
      rfl
    · rw [if_neg h2] at hb ⊢
      by_cases h3 : (resG p I O).gs1.isSome = true
      · rw [if_pos h3] at hb
        exact absurd (Option.some.inj hb) (by decide)
      · rw [if_neg h3] at hb ⊢
        simp [SourceResults.entries, resG]

/-- Fusion with the google record as base, after that record's
specifications dict has been replaced: only the fused specifications
change, and the synthetic-key counts and names are those of the original
result dict (the other slots and all other base fields are untouched). -/
theorem combine_google_specs (p : ProviderResult) (I O : Option ProviderResult) (q : String)
    (Z : List (String × SpecVal)) (hb : baseTag (resG p I O) = some "google") :
    combine_results (resG { p with specifications := Z } I O) q =
      { combine_results (resG p I O) q with
        specifications :=
          setSpec (setSpec Z "search_results_count" (.nat (resG p I O).entries.length))
            "sources_searched"
            (.str (String.intercalate ", " ((resG p I O).entries.map Prod.fst))) } := by
  have hb2 : baseTag (resG { p with specifications := Z } I O) = some "google" :=
    (baseTag_resG_congr { p with specifications := Z } p I O rfl).trans hb
  have hbase1 : baseOf (resG p I O) = some p := baseOf_resG_google p I O hb
  have hbase2 : baseOf (resG { p with specifications := Z } I O) =
      some { p with specifications := Z } :=
    baseOf_resG_google { p with specifications := Z } I O hb2
  simp only [combine_results, hbase1, hbase2, Option.getD_some]
  apply ProviderResult.ext <;> simp [resG, SourceResults.entries]

/-- Fusing again with the already-augmented specifications dict reproduces
the same fused record: the two synthetic keys are simply overwritten with
the same values. -/
theorem combine_repeat (p : ProviderResult) (I O : Option ProviderResult) (q : String)
    (hb : baseTag (resG p I O) = some "google") :
    combine_results
        (resG { p with specifications := (combine_results (resG p I O) q).specifications } I O)
        q =
      combine_results (resG p I O) q := by
  rw [combine_google_specs p I O q _ hb]
  have hspec : (combine_results (resG p I O) q).specifications =
      setSpec (setSpec p.specifications "search_results_count"
          (.nat (resG p I O).entries.length))
        "sources_searched"
        (.str (String.intercalate ", " ((resG p I O).entries.map Prod.fst))) := by
    simp only [combine_results, baseOf_resG_google p I O hb, Option.getD_some]
  refine ProviderResult.ext rfl rfl rfl ?_ rfl rfl rfl rfl rfl
  show setSpec (setSpec (combine_results (resG p I O) q).specifications
      "search_results_count" (.nat (resG p I O).entries.length))
    "sources_searched"
    (.str (String.intercalate ", " ((resG p I O).entries.map Prod.fst))) =
      (combine_results (resG p I O) q).specifications
  rw [hspec]
  exact setSpec_idem2 p.specifications "search_results_count" "sources_searched" _ _ (by decide)

/-- The record the stateful resolver returns, independent of the mutation
branch taken. -/
theorem resolveSt_fst (db : DB) (q : String) (enabled : List String) :
    (resolveSt db q enabled).1 =
      if (demoSlots db q enabled).entries.isEmpty then noResultsRec q enabled []
      else combine_results (demoSlots db q enabled) q := by
  simp only [resolveSt]
  split
  · rfl
  · split
    · cases demoFind db q <;> rfl
    · rfl

/-- When google is not enabled, the resolver cannot pick the google base
and the dataset is unchanged. -/
theorem baseTag_no_google (I O : Option ProviderResult) :
    baseTag { google := none, icecat := I, gs1 := O } ≠ some "google" := by
  unfold baseTag
  by_cases h1 : icecatOk { google := none, icecat := I, gs1 := O } = true
  · rw [if_pos h1]
    decide
  · rw [if_neg h1]
    have h2 : googleOk { google := none, icecat := I, gs1 := O } = false := rfl
    rw [h2]
    simp only [Bool.false_eq_true, if_false]
    by_cases h3 : (O.isSome : Bool) = true
    · rw [if_pos h3]
      decide
    · rw [if_neg h3]
      cases I <;> cases O <;> simp [SourceResults.entries, Option.toList]

/-- The dataset state the stateful resolver leaves behind. -/
theorem resolveSt_snd (db : DB) (q : String) (enabled : List String) :
    (resolveSt db q enabled).2 =
      if (demoSlots db q enabled).entries.isEmpty then db
      else if baseTag (demoSlots db q enabled) = some "google" then
        match demoFind db q with
        | some e =>
          dbSetSpecs db e.1 (combine_results (demoSlots db q enabled) q).specifications
        | none => db
      else db := by
  simp only [resolveSt]
  split
  · rfl
  · split
    · cases demoFind db q <;> rfl
    · rfl

/-- C5 amended: re-running the resolver with the same query, enabled set
and provider configuration, starting from the dataset state the first run
left behind, returns the same fused record — even though the first run may
have mutated the shared dataset entry in place (the rerun overwrites the
two synthetic specification keys with identical values). -/
theorem C5_amended_resolver_repeat (db : DB) (q : String) (enabled : List String) :
    (resolveSt (resolveSt db q enabled).2 q enabled).1 = (resolveSt db q enabled).1 := by
  by_cases hg : "google" ∈ enabled
  case neg =>
    have hslots : demoSlots db q enabled =
        { google := none,
          icecat := if "icecat" ∈ enabled then some (demo_icecat_search q) else none,
          gs1 := if "gs1" ∈ enabled then some (gs1_search_product q) else none } := by
      simp [demoSlots, hg]
    have hnb : baseTag (demoSlots db q enabled) ≠ some "google" := by
      rw [hslots]
      exact baseTag_no_google _ _
    have hsnd : (resolveSt db q enabled).2 = db := by
      rw [resolveSt_snd]
      simp [hnb]
    rw [hsnd]
  case pos =>
    cases hf : demoFind db q with
    | none =>
      have hsnd : (resolveSt db q enabled).2 = db := by
        rw [resolveSt_snd, hf]
        simp
      rw [hsnd]
    | some e =>
      by_cases hb : baseTag (demoSlots db q enabled) = some "google"
      case neg =>
        have hsnd : (resolveSt db q enabled).2 = db := by
          rw [resolveSt_snd]
          simp [hb]
        rw [hsnd]
      case pos =>
        set I := (if "icecat" ∈ enabled then some (demo_icecat_search q) else none) with hI
        set O := (if "gs1" ∈ enabled then some (gs1_search_product q) else none) with hO
        have hslots : demoSlots db q enabled = resG e.2 I O := by
          simp [demoSlots, resG, hg, demo_search, hf, hI, hO]
        have hEmpty1 : (demoSlots db q enabled).entries.isEmpty = false := by
          rw [hslots]
          simp [resG, SourceResults.entries]
        have hsnd : (resolveSt db q enabled).2 =
            dbSetSpecs db e.1 (combine_results (demoSlots db q enabled) q).specifications := by
          rw [resolveSt_snd, hf]
          rw [if_neg (by simp [hEmpty1]), if_pos hb]
        set S1 := (combine_results (demoSlots db q enabled) q).specifications with hS1
        have hfind2 : demoFind (dbSetSpecs db e.1 S1) q =
            some (e.1, { e.2 with specifications := S1 }) := by
          rw [demoFind_dbSetSpecs, hf]
          simp [entrySetSpecs]
        have hsearch2 : demo_search (dbSetSpecs db e.1 S1) q =
            { e.2 with specifications := S1 } := by
          unfold demo_search
          rw [hfind2]
        have hslots2 : demoSlots (dbSetSpecs db e.1 S1) q enabled =
            resG { e.2 with specifications := S1 } I O := by
          simp [demoSlots, resG, hg, hsearch2, hI, hO]
        have hb1 : baseTag (resG e.2 I O) = some "google" := by
          rw [← hslots]
          exact hb
        rw [hsnd, resolveSt_fst, resolveSt_fst, hslots2, hslots]
        rw [if_neg (by simp [resG, SourceResults.entries]),
          if_neg (by simp [resG, SourceResults.entries])]
        have hS1' : S1 = (combine_results (resG e.2 I O) q).specifications := by
          rw [hS1, hslots]
        rw [hS1']
        exact combine_repeat e.2 I O q hb1

/-- C5 counterexample: resolving "iphone 15 pro" with google enabled
mutates the shared demo dataset in place (the fused record's synthetic
specification keys land in the module-level entry), so a later
adapter-level `search_product` (demo search) call on the same query
returns a record that differs from what it returned before the resolve —
the calls are not independent and there is shared mutable state. -/
theorem C5_counterexample :
    (resolveSt SAMPLE_PRODUCTS "iphone 15 pro" ["google"]).2 ≠ SAMPLE_PRODUCTS ∧
    lookupSpec (demo_search SAMPLE_PRODUCTS "iphone 15 pro").specifications
      "search_results_count" = none ∧
    lookupSpec (demo_search (resolveSt SAMPLE_PRODUCTS "iphone 15 pro" ["google"]).2
        "iphone 15 pro").specifications "search_results_count" = some (.nat 1) ∧
    demo_search (resolveSt SAMPLE_PRODUCTS "iphone 15 pro" ["google"]).2 "iphone 15 pro" ≠
      demo_search SAMPLE_PRODUCTS "iphone 15 pro" :=
  ⟨by decide, by decide, by decide, by decide⟩

/-- C10 witness: a concrete run with icecat enabled, where the fused
record carries the icecat base fields. -/
theorem C10_witness :
    coreOf (search_product "galaxy s24" ["icecat"] (cfgWithIcecat none none)) =
      coreOf (demo_icecat_search "galaxy s24") ∧
    (search_product "galaxy s24" ["icecat"] (cfgWithIcecat none none)).multi_source = true :=
  (C10_icecat_always_base "galaxy s24" ["icecat"] none none (by decide)).2
